import Mathlib

/-
  Verification of the kube-doctor-mcp diagnostic core.

  The Go sources are shallowly embedded: Go strings are modelled as Lean
  strings and the byte-level operations of the strings package are modelled
  over the character list (all identifiers and messages involved are ASCII,
  where byte-wise and character-wise prefix/containment coincide).
  Stateful report building (strings.Builder accumulation) is modelled as
  lists of structured findings / lines, keeping the severities, messages and
  control flow of the source; purely typographic concerns (column widths,
  headers produced by the util formatting package, which is not part of the
  analysed sources) are not re-modelled.
-/

namespace KubeDoctor

/-- Go strings.HasPrefix s pre, modelled over the character lists. -/
def goHasPrefix (s pre : String) : Bool := pre.data.isPrefixOf s.data

/-- Go strings.Contains s sub, modelled over the character lists. -/
def goContains (s sub : String) : Bool := s.data.tails.any (fun t => sub.data.isPrefixOf t)

/-- Splits a character list at every occurrence of the separator character,
keeping empty segments, as Go strings.Split does for a one-character
separator. -/
def splitOnChar (c : Char) : List Char → List (List Char)
  | [] => [[]]
  | x :: xs =>
    match splitOnChar c xs with
    | [] => [[]]
    | h :: t => if x = c then [] :: h :: t else (x :: h) :: t

/-- Go strings.Split s "\n": the lines of a log blob. -/
def goSplitLines (s : String) : List String := (splitOnChar (Char.ofNat 10) s.data).map String.mk

/-- A Kubernetes label map, as an association list (maps in the source are
read through lookups only). -/
def Labels := List (String × String)

/-- Lookup of a label key (Go map indexing; none when the key is absent). -/
def lookupLabel (ls : List (String × String)) (k : String) : Option String :=
  (ls.find? (fun p => p.1 == k)).map (fun p => p.2)

/-- AND-of-all-pairs label selector matching (labels.SelectorFromSet(sel).Matches). -/
def selectorMatches (sel ls : List (String × String)) : Bool :=
  sel.all (fun p => lookupLabel ls p.1 == some p.2)

-- ---------------------------------------------------------------------------
-- pkg/mermaid: flowchart builder
-- ---------------------------------------------------------------------------

/-- Flowchart direction (pkg/mermaid/common.go Direction). -/
inductive Direction
  | tb | bt | lr | rl
deriving DecidableEq, Repr

/-- Node shape (pkg/mermaid/common.go Shape). -/
inductive Shape
  | rect | round | stadium | circle | diamond | hex | trapAlt | cyl
deriving DecidableEq, Repr

/-- Edge line style (pkg/mermaid/common.go EdgeStyle). -/
inductive EdgeStyle
  | solid | dotted | thick
deriving DecidableEq, Repr

/-- Severity level for node styling (pkg/mermaid/common.go Severity). -/
inductive Severity
  | critical | warning | healthy | info
deriving DecidableEq, Repr

/-- The severityStyles map of pkg/mermaid/common.go (total: all four
severities carry a style, so the ok-check in AddStyle always passes). -/
def severityStyle : Severity → String
  | .critical => "fill:#ffcccc,stroke:#cc0000,stroke-width:2px"
  | .warning => "fill:#ffffcc,stroke:#cccc00,stroke-width:2px"
  | .healthy => "fill:#ccffcc,stroke:#00cc00,stroke-width:2px"
  | .info => "fill:#cce5ff,stroke:#4a90d9,stroke-width:2px"

/-- The character class kept by safeIDRegexp of pkg/mermaid/common.go:
alphanumerics and underscore; every other rune is replaced. -/
def safeChar (c : Char) : Bool := c.isAlphanum || c = '_'

/-- SafeID of pkg/mermaid/common.go: replace every rune outside
[a-zA-Z0-9_] by an underscore, map the empty result to a lone underscore,
and prepend an underscore when the first character is a digit. -/
def safeID (s : String) : String :=
  match s.data.map (fun c => if safeChar c then c else '_') with
  | [] => "_"
  | c :: cs => if '0' ≤ c ∧ c ≤ '9' then String.mk ('_' :: c :: cs) else String.mk (c :: cs)

/-- EscapeLabel of pkg/mermaid/common.go: double quotes become the Mermaid
entity. -/
def escapeLabel (s : String) : String :=
  String.mk (s.data.foldr
    (fun c acc => if c = '"' then '#' :: 'q' :: 'u' :: 'o' :: 't' :: ';' :: acc else c :: acc) [])

/-- BR of pkg/mermaid/common.go. -/
def mermaidBR : String := "<br/>"

/-- nodeShape of pkg/mermaid/common.go: wraps a label in the shape
delimiters. -/
def nodeShape (id label : String) : Shape → String
  | .round => id ++ "(" ++ label ++ ")"
  | .stadium => id ++ "([" ++ label ++ "])"
  | .circle => id ++ "((" ++ label ++ "))"
  | .diamond => id ++ "\x7b" ++ label ++ "\x7d"
  | .hex => id ++ "\x7b\x7b" ++ label ++ "\x7d\x7d"
  | .trapAlt => id ++ "[/" ++ label ++ "/]"
  | .cyl => id ++ "[(" ++ label ++ ")]"
  | .rect => id ++ "[" ++ label ++ "]"

/-- edgeArrow of pkg/mermaid/common.go. -/
def edgeArrow (style : EdgeStyle) (label : String) : String :=
  match style with
  | .dotted => if label ≠ "" then "-.->|" ++ label ++ "|" else "-.->"
  | .thick => if label ≠ "" then "==>|" ++ label ++ "|" else "==>"
  | .solid => if label ≠ "" then "-->|" ++ label ++ "|" else "-->"

/-- The Flowchart builder of pkg/mermaid/gantt.go: an ordered line list plus
an ordered style-line list, appended to by the Add operations. -/
structure Flowchart where
  direction : Direction
  lines : List String
  styles : List String
deriving DecidableEq, Repr

/-- Flowchart.AddNode of pkg/mermaid/gantt.go. -/
def Flowchart.addNode (f : Flowchart) (id label : String) (shape : Shape) : Flowchart :=
  { f with lines := f.lines ++ ["    " ++ nodeShape id (escapeLabel label) shape] }

/-- Flowchart.AddEdge of pkg/mermaid/gantt.go. -/
def Flowchart.addEdge (f : Flowchart) (src dst label : String) (style : EdgeStyle) : Flowchart :=
  { f with lines := f.lines ++ ["    " ++ src ++ " " ++ edgeArrow style (escapeLabel label) ++ " " ++ dst] }

/-- Flowchart.AddStyle of pkg/mermaid/gantt.go (the severity lookup always
succeeds, severityStyle being total). -/
def Flowchart.addStyle (f : Flowchart) (nodeID : String) (sev : Severity) : Flowchart :=
  { f with styles := f.styles ++ ["    style " ++ nodeID ++ " " ++ severityStyle sev] }

/-- Flowchart.AddRawStyle of pkg/mermaid/gantt.go. -/
def Flowchart.addRawStyle (f : Flowchart) (nodeID style : String) : Flowchart :=
  { f with styles := f.styles ++ ["    style " ++ nodeID ++ " " ++ style] }

-- ---------------------------------------------------------------------------
-- Pods (corev1 snapshot fields used by the diagnostic code)
-- ---------------------------------------------------------------------------

/-- corev1.PodPhase. -/
inductive PodPhase
  | pending | running | succeeded | failed | unknownPhase
deriving DecidableEq, Repr

/-- The string value of a corev1.PodPhase. -/
def PodPhase.toStr : PodPhase → String
  | .pending => "Pending"
  | .running => "Running"
  | .succeeded => "Succeeded"
  | .failed => "Failed"
  | .unknownPhase => "Unknown"

/-- A waiting or terminated container-state record; only the Reason field is
read by the embedded code. -/
structure StateDetail where
  reason : String
deriving DecidableEq, Repr

/-- corev1.ContainerState: at most one of Waiting/Terminated present (the
code only tests presence and reads Reason). -/
structure ContainerState where
  waiting : Option StateDetail
  terminated : Option StateDetail
deriving DecidableEq, Repr

/-- corev1.ContainerStatus, restricted to the fields the diagnostic code
reads. RestartCount (an int32 that is never negative) is modelled as Nat. -/
structure ContainerStatus where
  name : String
  ready : Bool
  restartCount : Nat
  state : ContainerState
  lastTerminationState : ContainerState
deriving DecidableEq, Repr

/-- corev1.PodCondition, restricted to the fields read (Type, Status,
Message as strings). -/
structure PodCondition where
  condType : String
  status : String
  message : String
deriving DecidableEq, Repr

/-- corev1.PodStatus, restricted to the fields read. -/
structure PodStatus where
  phase : PodPhase
  reason : String
  containerStatuses : List ContainerStatus
  initContainerStatuses : List ContainerStatus
  conditions : List PodCondition
deriving DecidableEq, Repr

/-- A container of the pod spec; only its name is read by the embedded
code paths. -/
structure SpecContainer where
  name : String
deriving DecidableEq, Repr

/-- A pod snapshot: name, labels, status and spec containers. -/
structure Pod where
  name : String
  labels : List (String × String)
  status : PodStatus
  specContainers : List SpecContainer
deriving DecidableEq, Repr

/-- isPodHealthy of pkg/tools/diagnostics.go: Running with every container
status Ready and none Waiting, or Succeeded. -/
def isPodHealthy (p : Pod) : Bool :=
  if p.status.phase = PodPhase.running then
    p.status.containerStatuses.all (fun cs => cs.ready && cs.state.waiting.isNone)
  else if p.status.phase = PodPhase.succeeded then true
  else false

/-- The per-container step of podPhaseReason: a waiting reason when present
and non-empty, else a terminated reason when present and non-empty. -/
def csReason (cs : ContainerStatus) : Option String :=
  match cs.state.waiting with
  | some d =>
    if d.reason ≠ "" then some d.reason
    else
      match cs.state.terminated with
      | some t => if t.reason ≠ "" then some t.reason else none
      | none => none
  | none =>
    match cs.state.terminated with
    | some t => if t.reason ≠ "" then some t.reason else none
    | none => none

/-- podPhaseReason of the pod-tools source: first container status (main,
then init with an Init: prefix) carrying a waiting/terminated reason, else
the pod-level status reason, else the bare phase. -/
def podPhaseReason (p : Pod) : String :=
  match p.status.containerStatuses.findSome? csReason with
  | some r => r
  | none =>
    match p.status.initContainerStatuses.findSome? csReason with
    | some r => "Init:" ++ r
    | none => if p.status.reason ≠ "" then p.status.reason else p.status.phase.toStr

/-- podContainerSummary of the pod-tools source: (ready, total, restarts). -/
def podContainerSummary (p : Pod) : Nat × Nat × Nat :=
  (p.status.containerStatuses.countP (fun cs => cs.ready),
   p.specContainers.length,
   p.status.containerStatuses.foldl (fun acc cs => acc + cs.restartCount) 0)

-- ---------------------------------------------------------------------------
-- pkg/k8s/nodes.go: endpoints, path matching, pods-for-service
-- ---------------------------------------------------------------------------

/-- A corev1.EndpointAddress as stored in an Endpoints subset: IP, optional
TargetRef name, optional NodeName. -/
structure EndpointAddr where
  ip : String
  targetRefName : Option String
  nodeName : Option String
deriving DecidableEq, Repr

/-- A corev1.EndpointSubset: ready Addresses and NotReadyAddresses. -/
structure EndpointSubset where
  addresses : List EndpointAddr
  notReadyAddresses : List EndpointAddr
deriving DecidableEq, Repr

/-- EndpointAddress of pkg/k8s/nodes.go (the projected record; absent
TargetRef/NodeName leave the Go zero value, the empty string). -/
structure EndpointAddress where
  ip : String
  podName : String
  nodeName : String
deriving DecidableEq, Repr

/-- EndpointHealth of pkg/k8s/nodes.go. The Go int counters are modelled as
Int so that their non-negativity is a statement, not a typing artifact. -/
structure EndpointHealth where
  serviceName : String
  serviceNS : String
  totalEndpoints : Int
  readyCount : Int
  notReadyCount : Int
  readyAddresses : List EndpointAddress
  notReadyPods : List EndpointAddress
deriving DecidableEq, Repr

/-- The per-address projection inside GetServiceEndpointHealth. -/
def addrToEndpointAddress (a : EndpointAddr) : EndpointAddress :=
  { ip := a.ip, podName := a.targetRefName.getD "", nodeName := a.nodeName.getD "" }

/-- The ready-address loop body of GetServiceEndpointHealth. -/
def addReady (h : EndpointHealth) (a : EndpointAddr) : EndpointHealth :=
  { h with readyAddresses := h.readyAddresses ++ [addrToEndpointAddress a],
           readyCount := h.readyCount + 1 }

/-- The not-ready-address loop body of GetServiceEndpointHealth. -/
def addNotReady (h : EndpointHealth) (a : EndpointAddr) : EndpointHealth :=
  { h with notReadyPods := h.notReadyPods ++ [addrToEndpointAddress a],
           notReadyCount := h.notReadyCount + 1 }

/-- The per-subset loop body of GetServiceEndpointHealth. -/
def processSubset (h : EndpointHealth) (s : EndpointSubset) : EndpointHealth :=
  s.notReadyAddresses.foldl addNotReady (s.addresses.foldl addReady h)

/-- GetServiceEndpointHealth of pkg/k8s/nodes.go, as a pure function of the
fetched Endpoints object (its Subsets): sums ready and not-ready addresses
over all subsets and sets TotalEndpoints to their sum. -/
def getServiceEndpointHealth (ns serviceName : String) (subsets : List EndpointSubset) :
    EndpointHealth :=
  let h0 : EndpointHealth :=
    { serviceName := serviceName, serviceNS := ns, totalEndpoints := 0,
      readyCount := 0, notReadyCount := 0, readyAddresses := [], notReadyPods := [] }
  let h := subsets.foldl processSubset h0
  { h with totalEndpoints := h.readyCount + h.notReadyCount }

/-- networkingv1.PathType. -/
inductive PathType
  | exactT | prefixT | implementationSpecific
deriving DecidableEq, Repr

/-- matchPath of pkg/k8s/nodes.go: Exact compares the strings, Prefix and
the ImplementationSpecific default both test a string prefix. -/
def matchPath (pattern path : String) (pathType : PathType) : Bool :=
  match pathType with
  | .exactT => path == pattern
  | .prefixT => goHasPrefix path pattern
  | .implementationSpecific => goHasPrefix path pattern

/-- A corev1.Service restricted to the fields read by the embedded paths. -/
structure Service where
  name : String
  namespc : String
  selector : List (String × String)
deriving DecidableEq, Repr

/-- GetPodsForService of pkg/k8s/nodes.go: a nil/empty selector returns
(nil, nil) before any API call; otherwise the pods are listed by label
selector (the API call is the listPods parameter, which may fail). -/
def getPodsForService (svc : Service)
    (listPods : List (String × String) → Except String (List Pod)) :
    Except String (List Pod) :=
  if svc.selector.isEmpty then Except.ok []
  else listPods svc.selector

-- ---------------------------------------------------------------------------
-- Findings
-- ---------------------------------------------------------------------------

/-- A finding: a severity tier and a message (the severity-tagged lines the
engines append; rendering by util.FormatFinding is purely typographic). -/
structure Finding where
  severity : String
  message : String
deriving DecidableEq, Repr

-- ---------------------------------------------------------------------------
-- pkg/tools/resource_analysis.go: analyze_network_policies
-- ---------------------------------------------------------------------------

/-- networkingv1.PolicyType. -/
inductive PolicyType
  | ingressT | egressT
deriving DecidableEq, Repr

/-- One ingress/egress rule of a NetworkPolicy. Its peers and ports are only
ever rendered through describeIngressRule/describeEgressRule (helpers of the
repository that are not among the provided sources); desc stands for that
rendered description, which the classification never inspects. -/
structure NetPolRule where
  desc : String
deriving DecidableEq, Repr

/-- A networkingv1.NetworkPolicy restricted to the fields the audit reads.
podSelectorMatchLabels/podSelectorMatchExpressions mirror
Spec.PodSelector. -/
structure NetworkPolicy where
  name : String
  policyTypes : List PolicyType
  ingressRules : List NetPolRule
  egressRules : List NetPolRule
  podSelectorMatchLabels : List (String × String)
  podSelectorMatchExpressions : List String
deriving DecidableEq, Repr

/-- The hasIngress computation of analyze_network_policies: the PolicyTypes
loop, then the empty-list default (Kubernetes infers Ingress when unset). -/
def policyHasIngress (np : NetworkPolicy) : Bool :=
  np.policyTypes.contains PolicyType.ingressT || np.policyTypes.isEmpty

/-- The hasEgress computation of analyze_network_policies: only an explicit
Egress entry in PolicyTypes. -/
def policyHasEgress (np : NetworkPolicy) : Bool :=
  np.policyTypes.contains PolicyType.egressT

/-- One line of the Allow/Deny matrix of analyze_network_policies. -/
inductive MatrixEntry
  | ingressDenyAll
  | ingressAllowRule (idx : Nat) (desc : String)
  | egressDenyAll
  | egressAllowRule (idx : Nat) (desc : String)
deriving DecidableEq, Repr

/-- The Allow/Deny matrix body for one policy (analyze_network_policies):
for each direction that the policy types cover, DENY ALL when its rule list
is empty, else one ALLOW line per rule (1-based, as printed). -/
def policyMatrix (np : NetworkPolicy) : List MatrixEntry :=
  (if policyHasIngress np then
    if np.ingressRules.isEmpty then [MatrixEntry.ingressDenyAll]
    else np.ingressRules.enum.map (fun e => MatrixEntry.ingressAllowRule (e.1 + 1) e.2.desc)
  else []) ++
  (if policyHasEgress np then
    if np.egressRules.isEmpty then [MatrixEntry.egressDenyAll]
    else np.egressRules.enum.map (fun e => MatrixEntry.egressAllowRule (e.1 + 1) e.2.desc)
  else [])

/-- The Critical deny-all finding for an ingress-typed policy without
ingress rules (analyze_network_policies findings loop). -/
def ingressDenyFinding (np : NetworkPolicy) : Finding :=
  ⟨"CRITICAL", "Policy '" ++ np.name ++
    "' has Ingress type but no ingress rules — all inbound traffic DENIED to matched pods"⟩

/-- The Critical deny-all finding for an egress-typed policy without egress
rules (analyze_network_policies findings loop). -/
def egressDenyFinding (np : NetworkPolicy) : Finding :=
  ⟨"CRITICAL", "Policy '" ++ np.name ++
    "' has Egress type but no egress rules — all outbound traffic DENIED from matched pods (including DNS)"⟩

/-- The per-policy findings of the analyze_network_policies findings loop:
deny-all findings per direction, then the selects-all-pods Info finding. -/
def policyFindings (np : NetworkPolicy) : List Finding :=
  (if policyHasIngress np && np.ingressRules.isEmpty then [ingressDenyFinding np] else []) ++
  (if policyHasEgress np && np.egressRules.isEmpty then [egressDenyFinding np] else []) ++
  (if np.podSelectorMatchLabels.isEmpty && np.podSelectorMatchExpressions.isEmpty then
    [⟨"INFO", "Policy '" ++ np.name ++ "' selects ALL pods in namespace"⟩]
  else [])

-- ---------------------------------------------------------------------------
-- pkg/tools/resource_analysis.go: check_dns_health
-- ---------------------------------------------------------------------------

/-- Whether a pod carries the given label key/value. -/
def hasLabel (p : Pod) (k v : String) : Bool := lookupLabel p.labels k == some v

/-- The three CoreDNS discovery strategies of check_dns_health, in order:
label k8s-app=kube-dns, then label app.kubernetes.io/name=coredns, then a
name-prefix scan for coredns-; the first non-empty result wins. -/
def findCoreDNSPods (kubeSystemPods : List Pod) : List Pod :=
  let s1 := kubeSystemPods.filter (fun p => hasLabel p "k8s-app" "kube-dns")
  if !s1.isEmpty then s1
  else
    let s2 := kubeSystemPods.filter (fun p => hasLabel p "app.kubernetes.io/name" "coredns")
    if !s2.isEmpty then s2
    else kubeSystemPods.filter (fun p => goHasPrefix p.name "coredns-")

/-- util.HighRestartThreshold. Modelled from the spec: the util package is
not among the provided sources; the spec fixes the high-restart threshold
as more than 5 restarts. -/
def highRestartThreshold : Nat := 5

/-- The per-pod findings of the check_dns_health FINDINGS loop: phase,
restart count, Ready condition, CrashLoopBackOff and OOMKilled checks. -/
def dnsPodFindings (p : Pod) : List Finding :=
  (if p.status.phase ≠ PodPhase.running then
    [⟨"CRITICAL", "CoreDNS pod '" ++ p.name ++ "' is " ++ p.status.phase.toStr ++ " (not Running)"⟩]
  else []) ++
  (let restarts := (podContainerSummary p).2.2
   if restarts > highRestartThreshold then
     [⟨"WARNING", "CoreDNS pod '" ++ p.name ++ "' has " ++ toString restarts ++ " restarts"⟩]
   else if restarts > 0 then
     [⟨"INFO", "CoreDNS pod '" ++ p.name ++ "' has " ++ toString restarts ++ " restart(s)"⟩]
   else []) ++
  (p.status.conditions.filterMap (fun cond =>
    if cond.condType == "Ready" && cond.status != "True" then
      some ⟨"CRITICAL", "CoreDNS pod '" ++ p.name ++ "' is not ready: " ++ cond.message⟩
    else none)) ++
  (p.status.containerStatuses.flatMap (fun cs =>
    (match cs.state.waiting with
     | some d =>
       if d.reason == "CrashLoopBackOff" then
         [⟨"CRITICAL", "CoreDNS container '" ++ cs.name ++ "' in pod '" ++ p.name ++
           "' is in CrashLoopBackOff"⟩]
       else []
     | none => []) ++
    (match cs.lastTerminationState.terminated with
     | some d =>
       if d.reason == "OOMKilled" then
         [⟨"CRITICAL", "CoreDNS container '" ++ cs.name ++ "' in pod '" ++ p.name ++
           "' was OOMKilled — increase memory limit"⟩]
       else []
     | none => [])))

/-- The fixed log error-pattern list of check_dns_health. -/
def dnsErrorPatterns : List String :=
  ["SERVFAIL", "NXDOMAIN", "REFUSED", "i/o timeout", "connection refused",
   "no such host", "plugin/errors", "ERROR"]

/-- The CoreDNS container-name pick of check_dns_health: a container whose
name contains coredns or dns, else the first container, else empty. -/
def dnsContainerName (p : Pod) : String :=
  match p.specContainers.find? (fun c => goContains c.name "coredns" || goContains c.name "dns") with
  | some c => c.name
  | none =>
    match p.specContainers with
    | c :: _ => c.name
    | [] => ""

/-- Occurrences of a pattern in a log: the number of lines containing it
(strings.Contains per line). -/
def countPattern (pat : String) (lines : List String) : Nat :=
  lines.countP (fun line => goContains line pat)

/-- The pattern-count accumulation of check_dns_health over all CoreDNS
pods: per pattern, the counts from each pod whose logs were fetched and
non-empty. getLogs is the log fetch (none = fetch error). -/
def dnsPatternTotals (pods : List Pod) (getLogs : String → String → Option String) :
    List (String × Nat) :=
  dnsErrorPatterns.map (fun pat =>
    (pat, (pods.map (fun p =>
      match getLogs p.name (dnsContainerName p) with
      | none => 0
      | some logs => if logs == "" then 0 else countPattern pat (goSplitLines logs))).sum))

/-- The threshold findings over accumulated pattern counts
(check_dns_health log findings loop). -/
def dnsLogFindings (totals : List (String × Nat)) : List Finding :=
  totals.flatMap (fun e =>
    (if e.2 > 50 && e.1 == "SERVFAIL" then
      [⟨"CRITICAL", "High SERVFAIL rate: " ++ toString e.2 ++ " occurrences — DNS resolution is failing"⟩]
    else if e.2 > 10 && e.1 == "SERVFAIL" then
      [⟨"WARNING", "Elevated SERVFAIL count: " ++ toString e.2 ++ " — some DNS queries are failing"⟩]
    else []) ++
    (if e.2 > 100 && e.1 == "NXDOMAIN" then
      [⟨"INFO", "High NXDOMAIN count: " ++ toString e.2 ++ " — check if services have correct DNS names"⟩]
    else []) ++
    (if e.2 > 0 && (e.1 == "i/o timeout" || e.1 == "connection refused") then
      [⟨"WARNING", "Upstream DNS connectivity issues: " ++ toString e.2 ++ " '" ++ e.1 ++ "' errors"⟩]
    else []))

/-- The Overall DNS Assessment data of check_dns_health: running/total pod
tallies, the FINDINGS-section counter and the accumulated log-error total. -/
structure DNSAssessment where
  healthyPods : Nat
  totalPods : Nat
  findingsCount : Nat
  totalLogErrors : Nat
deriving DecidableEq, Repr

/-- The observable outcome of one check_dns_health run: the finding lines
in emission order, the pods whose logs were scanned, and the overall
assessment section (none when the report returns before reaching it). -/
structure DNSReport where
  findings : List Finding
  logScans : List String
  assessment : Option DNSAssessment
deriving DecidableEq, Repr

/-- check_dns_health of pkg/tools/resource_analysis.go. kubeDNSSvc is the
kube-dns service lookup result (none = not found); getLogs the per-pod log
fetch. When no discovery strategy finds a pod the report is the single
Critical finding and returns at once — no log analysis, no assessment
section. Otherwise findings accumulate in source order (the kube-dns
service Warning is printed above the FINDINGS section and does not
increment its counter). -/
def checkDNSHealth (kubeSystemPods : List Pod) (kubeDNSSvc : Option String)
    (getLogs : String → String → Option String) : DNSReport :=
  let coreDNSPods := findCoreDNSPods kubeSystemPods
  if coreDNSPods.isEmpty then
    { findings := [⟨"CRITICAL", "No CoreDNS pods found in kube-system namespace"⟩],
      logScans := [], assessment := none }
  else
    let svcFindings : List Finding :=
      match kubeDNSSvc with
      | none => [⟨"WARNING", "CoreDNS service 'kube-dns' not found in kube-system"⟩]
      | some _ => []
    let podFindings := coreDNSPods.flatMap dnsPodFindings
    let replicaFindings : List Finding :=
      if coreDNSPods.length < 2 then
        [⟨"WARNING", "Only 1 CoreDNS pod running — no DNS redundancy. Consider scaling to at least 2 replicas."⟩]
      else []
    let totals := dnsPatternTotals coreDNSPods getLogs
    let logFindings := dnsLogFindings totals
    let counted := podFindings ++ replicaFindings ++ logFindings
    { findings := svcFindings ++ counted,
      logScans := coreDNSPods.map (fun p => p.name),
      assessment := some
        { healthyPods := coreDNSPods.countP (fun p => p.status.phase == PodPhase.running),
          totalPods := coreDNSPods.length,
          findingsCount := counted.length,
          totalLogErrors := (totals.map (fun e => e.2)).sum } }

-- ---------------------------------------------------------------------------
-- Composite diagnostics: diagnose_request_path fragments
-- ---------------------------------------------------------------------------

/-- The [3] ENDPOINTS stage of diagnose_request_path: a Critical finding on
a fetch error; a Critical zero-endpoint finding when the total is 0; a
Warning when some endpoints are not ready; nothing otherwise. -/
def endpointStageFindings (ep : Except String EndpointHealth) : List Finding :=
  match ep with
  | .error e => [⟨"CRITICAL", "Could not get endpoints: " ++ e⟩]
  | .ok h =>
    if h.totalEndpoints = 0 then
      [⟨"CRITICAL", "Service has 0 endpoints — no pods match the selector"⟩]
    else if h.notReadyCount > 0 then
      [⟨"WARNING", toString h.notReadyCount ++ " endpoint(s) not ready"⟩]
    else []

/-- The per-pod step of the topology loop of diagnose_request_path: node,
edge from the service node, severity style (Critical when unhealthy,
Healthy otherwise). Pod-name truncation is at 30 characters (the Go byte
slice; the names involved are ASCII). -/
def addPodToTopology (fc : Flowchart) (p : Pod) : Flowchart :=
  let podID := safeID ("pod_" ++ p.name)
  let label := if p.name.data.length > 30 then String.mk (p.name.data.take 30) ++ "..." else p.name
  let fc := fc.addNode podID label Shape.round
  let fc := fc.addEdge "svc" podID "" EdgeStyle.solid
  if !isPodHealthy p then fc.addStyle podID Severity.critical
  else fc.addStyle podID Severity.healthy

/-- The MERMAID TOPOLOGY DIAGRAM of diagnose_request_path: internet, ingress
and service nodes, the fixed blue raw style on the ingress node (agw), then
one node/edge/severity-style per backing pod. -/
def requestPathTopology (ingName host pathStr svcName backendSvcPort : String)
    (pods : List Pod) : Flowchart :=
  let fc : Flowchart := { direction := Direction.tb, lines := [], styles := [] }
  let fc := fc.addNode "internet" "Internet" Shape.circle
  let fc := fc.addNode "agw"
    ("Ingress: " ++ ingName ++ mermaidBR ++ mermaidBR ++ ": " ++ host ++ "  Path: " ++ pathStr)
    Shape.trapAlt
  let fc := fc.addNode "svc" ("Service: " ++ svcName ++ mermaidBR ++ "ClusterIP:" ++ backendSvcPort)
    Shape.rect
  let fc := fc.addEdge "internet" "agw" "HTTPS" EdgeStyle.solid
  let fc := fc.addEdge "agw" "svc" "" EdgeStyle.solid
  let fc := fc.addRawStyle "agw" "fill:#cce5ff,stroke:#4a90d9,stroke-width:2px"
  pods.foldl addPodToTopology fc

-- ---------------------------------------------------------------------------
-- Composite diagnostics: diagnose_service fragments
-- ---------------------------------------------------------------------------

/-- The Backing Pods section of diagnose_service: emitted only when the pod
lookup succeeded and found at least one pod; carries the pods tabled and
the unhealthy tally (the Critical n/m finding is emitted when positive).
When the pod list is empty or the lookup failed, the section is skipped
altogether. -/
def backingPodsSection (podsRes : Except String (List Pod)) : Option (List Pod × Nat) :=
  match podsRes with
  | .error _ => none
  | .ok pods =>
    if pods.length > 0 then some (pods, (pods.filter (fun p => !isPodHealthy p)).length)
    else none

/-- A corev1.Event restricted to the fields the Recent Events section
reads. Count (an int32 occurrence counter) is modelled as Nat. -/
structure Event where
  etype : String
  reason : String
  message : String
  count : Nat
deriving DecidableEq, Repr

/-- One rendered event line of the Recent Events section of
diagnose_service. -/
def renderEventLine (e : Event) : String :=
  (if e.etype == "Warning" then "  [WARNING] " else "  ") ++ e.reason ++ ": " ++ e.message ++
  (if e.count > 1 then " (x" ++ toString e.count ++ ")" else "")

/-- The event render loop of diagnose_service: iterates the events, but the
body first breaks out of the loop whenever the whole list is longer than
10 — so an over-long list renders no lines at all. -/
def eventLinesAux (all : List Event) : List Event → List String
  | [] => []
  | e :: rest => if all.length > 10 then [] else renderEventLine e :: eventLinesAux all rest

/-- The Recent Events section of diagnose_service: present (with its
header) whenever at least one event was returned; its lines come from the
render loop. -/
def recentEventsSection (events : List Event) : Option (List String) :=
  if events.length > 0 then some (eventLinesAux events events) else none

-- ===========================================================================
-- Theorems
-- ===========================================================================

-- ---------------------------------------------------------------------------
-- C2: isPodHealthy
-- ---------------------------------------------------------------------------

/-- A healthy running pod used to witness the vacuous ready-check. -/
def runningEmptyPod : Pod :=
  { name := "idle", labels := [],
    status := { phase := PodPhase.running, reason := "", containerStatuses := [],
                initContainerStatuses := [], conditions := [] },
    specContainers := [] }

/-- C2: isPodHealthy(pod) is true iff the phase is Succeeded, or the phase
is Running and every reported container status is Ready with no Waiting
state; a Pending pod is never healthy; a Running pod with zero reported
container statuses is healthy. -/
theorem isPodHealthy_characterization (p : Pod) :
    (isPodHealthy p = true ↔
      p.status.phase = PodPhase.succeeded ∨
        (p.status.phase = PodPhase.running ∧
          ∀ cs ∈ p.status.containerStatuses, cs.ready = true ∧ cs.state.waiting = none)) ∧
    (p.status.phase = PodPhase.pending → isPodHealthy p = false) ∧
    (p.status.phase = PodPhase.running → p.status.containerStatuses = [] →
      isPodHealthy p = true) := by
  refine ⟨?_, ?_, ?_⟩
  · unfold isPodHealthy
    by_cases h : p.status.phase = PodPhase.running
    · simp only [h, if_pos rfl]
      simp [List.all_eq_true, Bool.and_eq_true, Option.isNone_iff_eq_none]
    · rw [if_neg h]
      by_cases h2 : p.status.phase = PodPhase.succeeded
      · simp [h2]
      · simp [h, h2]
  · intro h
    unfold isPodHealthy
    rw [h]
    simp
  · intro h hcs
    unfold isPodHealthy
    rw [h, hcs]
    simp

/-- C2 witness: a Running pod with zero reported container statuses is
healthy. -/
theorem isPodHealthy_characterization_witness : isPodHealthy runningEmptyPod = true :=
  (isPodHealthy_characterization runningEmptyPod).2.2 rfl rfl

-- ---------------------------------------------------------------------------
-- C4: GetServiceEndpointHealth invariant
-- ---------------------------------------------------------------------------

/-- The ready-address fold adds one to readyCount per address. -/
theorem foldl_addReady_readyCount (l : List EndpointAddr) (h : EndpointHealth) :
    h.readyCount ≤ (l.foldl addReady h).readyCount := by
  induction l generalizing h with
  | nil => exact le_refl _
  | cons a t ih =>
    calc h.readyCount ≤ (addReady h a).readyCount := by simp [addReady]
    _ ≤ _ := ih (addReady h a)

/-- The ready-address fold leaves notReadyCount unchanged. -/
theorem foldl_addReady_notReadyCount (l : List EndpointAddr) (h : EndpointHealth) :
    (l.foldl addReady h).notReadyCount = h.notReadyCount := by
  induction l generalizing h with
  | nil => rfl
  | cons a t ih => simp [List.foldl_cons, ih, addReady]

/-- The not-ready-address fold adds one to notReadyCount per address. -/
theorem foldl_addNotReady_notReadyCount (l : List EndpointAddr) (h : EndpointHealth) :
    h.notReadyCount ≤ (l.foldl addNotReady h).notReadyCount := by
  induction l generalizing h with
  | nil => exact le_refl _
  | cons a t ih =>
    calc h.notReadyCount ≤ (addNotReady h a).notReadyCount := by simp [addNotReady]
    _ ≤ _ := ih (addNotReady h a)

/-- The not-ready-address fold leaves readyCount unchanged. -/
theorem foldl_addNotReady_readyCount (l : List EndpointAddr) (h : EndpointHealth) :
    (l.foldl addNotReady h).readyCount = h.readyCount := by
  induction l generalizing h with
  | nil => rfl
  | cons a t ih => simp [List.foldl_cons, ih, addNotReady]

/-- Processing a subset never decreases readyCount. -/
theorem processSubset_readyCount (h : EndpointHealth) (s : EndpointSubset) :
    h.readyCount ≤ (processSubset h s).readyCount := by
  unfold processSubset
  rw [foldl_addNotReady_readyCount]
  exact foldl_addReady_readyCount _ _

/-- Processing a subset never decreases notReadyCount. -/
theorem processSubset_notReadyCount (h : EndpointHealth) (s : EndpointSubset) :
    h.notReadyCount ≤ (processSubset h s).notReadyCount := by
  unfold processSubset
  calc h.notReadyCount ≤ (s.addresses.foldl addReady h).notReadyCount := by
        rw [foldl_addReady_notReadyCount]
  _ ≤ _ := foldl_addNotReady_notReadyCount _ _

/-- The subset fold never decreases readyCount. -/
theorem foldl_processSubset_readyCount (l : List EndpointSubset) (h : EndpointHealth) :
    h.readyCount ≤ (l.foldl processSubset h).readyCount := by
  induction l generalizing h with
  | nil => exact le_refl _
  | cons s t ih => exact le_trans (processSubset_readyCount h s) (ih (processSubset h s))

/-- The subset fold never decreases notReadyCount. -/
theorem foldl_processSubset_notReadyCount (l : List EndpointSubset) (h : EndpointHealth) :
    h.notReadyCount ≤ (l.foldl processSubset h).notReadyCount := by
  induction l generalizing h with
  | nil => exact le_refl _
  | cons s t ih => exact le_trans (processSubset_notReadyCount h s) (ih (processSubset h s))

/-- C4: every EndpointHealth returned by GetServiceEndpointHealth satisfies
totalEndpoints = readyCount + notReadyCount with both counts non-negative,
for every shape of the Endpoints object. -/
theorem endpoint_health_total_invariant (ns svcName : String) (subsets : List EndpointSubset) :
    (getServiceEndpointHealth ns svcName subsets).totalEndpoints =
      (getServiceEndpointHealth ns svcName subsets).readyCount +
        (getServiceEndpointHealth ns svcName subsets).notReadyCount ∧
    0 ≤ (getServiceEndpointHealth ns svcName subsets).readyCount ∧
    0 ≤ (getServiceEndpointHealth ns svcName subsets).notReadyCount := by
  unfold getServiceEndpointHealth
  refine ⟨rfl, ?_, ?_⟩
  · exact foldl_processSubset_readyCount subsets _
  · exact foldl_processSubset_notReadyCount subsets _

-- ---------------------------------------------------------------------------
-- C5: matchPath
-- ---------------------------------------------------------------------------

/-- C5 counterexample: the pattern "/" does not match every path under the
Prefix path type — a path that does not itself start with "/" (here the
empty path and a bare segment) is rejected by the string-prefix test. -/
theorem matchPath_root_counterexample :
    matchPath "/" "" PathType.prefixT = false ∧
    matchPath "/" "healthz" PathType.prefixT = false := by decide

/-- C5 (amended): Exact matching is string equality; Prefix matching holds
iff the path extends the pattern (so "/" matches exactly the paths that
start with "/"); ImplementationSpecific shares the Prefix code path. -/
theorem matchPath_characterization (pattern path : String) :
    (matchPath pattern path PathType.exactT = true ↔ path = pattern) ∧
    (matchPath pattern path PathType.prefixT = true ↔ ∃ t : String, path = pattern ++ t) ∧
    (matchPath pattern path PathType.implementationSpecific =
      matchPath pattern path PathType.prefixT) ∧
    (goHasPrefix path "/" = true → matchPath "/" path PathType.prefixT = true) := by
  refine ⟨?_, ?_, rfl, fun h => h⟩
  · exact beq_iff_eq
  · unfold matchPath goHasPrefix
    rw [List.isPrefixOf_iff_prefix]
    constructor
    · intro h
      obtain ⟨t, ht⟩ := h
      refine ⟨String.mk t, String.ext ?_⟩
      rw [String.data_append]
      exact ht.symm
    · intro h
      obtain ⟨t, ht⟩ := h
      refine ⟨t.data, ?_⟩
      rw [← String.data_append, ← ht]

/-- C5 witness: the characterization applied at pattern "/v1" and path
"/v1/charge" (a Prefix match) and at an Exact match. -/
theorem matchPath_characterization_witness :
    (matchPath "/v1" "/v1/charge" PathType.prefixT = true ↔
      ∃ t : String, "/v1/charge" = "/v1" ++ t) ∧
    matchPath "/v1" "/v1" PathType.exactT = true :=
  ⟨(matchPath_characterization "/v1" "/v1/charge").2.1,
   (matchPath_characterization "/v1" "/v1").1.mpr rfl⟩

-- ---------------------------------------------------------------------------
-- C3: network-policy deny-all classification
-- ---------------------------------------------------------------------------

/-- The ingress and egress deny-all findings of one policy always differ
(their message tails differ in length). -/
theorem ingress_egress_finding_ne (np : NetworkPolicy) :
    ingressDenyFinding np ≠ egressDenyFinding np := by
  intro h
  have hm := congrArg Finding.message h
  unfold ingressDenyFinding egressDenyFinding at hm
  simp only at hm
  have hl := congrArg String.length hm
  simp only [String.length_append] at hl
  have hne :
      ("' has Ingress type but no ingress rules — all inbound traffic DENIED to matched pods" :
        String).length ≠
      ("' has Egress type but no egress rules — all outbound traffic DENIED from matched pods (including DNS)" :
        String).length := by decide
  exact hne (Nat.add_left_cancel hl)

/-- A sample default-deny policy: typed for Ingress with no ingress rules. -/
def denyAllPolicy : NetworkPolicy :=
  { name := "default-deny", policyTypes := [PolicyType.ingressT], ingressRules := [],
    egressRules := [], podSelectorMatchLabels := [("app", "api")],
    podSelectorMatchExpressions := [] }

/-- C3: a policy whose types contain Ingress (or whose type list is empty,
inferred as Ingress) and whose ingress rule list is empty is classified
DENY ALL for inbound traffic — the matrix holds the ingress deny-all entry
and no ingress allow entry, and the findings hold the Critical deny-all
finding; a direction whose type is absent contributes no entry and no
finding. -/
theorem network_policy_deny_all (np : NetworkPolicy)
    (htype : np.policyTypes.contains PolicyType.ingressT = true ∨ np.policyTypes = [])
    (hrules : np.ingressRules = []) :
    MatrixEntry.ingressDenyAll ∈ policyMatrix np ∧
    (∀ i d, MatrixEntry.ingressAllowRule i d ∉ policyMatrix np) ∧
    ingressDenyFinding np ∈ policyFindings np ∧
    (ingressDenyFinding np).severity = "CRITICAL" ∧
    (policyHasEgress np = false →
      MatrixEntry.egressDenyAll ∉ policyMatrix np ∧
      (∀ i d, MatrixEntry.egressAllowRule i d ∉ policyMatrix np) ∧
      egressDenyFinding np ∉ policyFindings np) := by
  have hing : policyHasIngress np = true := by
    unfold policyHasIngress
    rcases htype with h | h
    · rw [h]
      rfl
    · rw [h]
      rfl
  have hmain : policyMatrix np = MatrixEntry.ingressDenyAll ::
      (if policyHasEgress np then
        if np.egressRules.isEmpty then [MatrixEntry.egressDenyAll]
        else np.egressRules.enum.map (fun e => MatrixEntry.egressAllowRule (e.1 + 1) e.2.desc)
      else []) := by
    unfold policyMatrix
    rw [hing, hrules]
    simp
  have hfind : policyFindings np = ingressDenyFinding np ::
      ((if policyHasEgress np && np.egressRules.isEmpty then [egressDenyFinding np] else []) ++
       (if np.podSelectorMatchLabels.isEmpty && np.podSelectorMatchExpressions.isEmpty then
         [⟨"INFO", "Policy '" ++ np.name ++ "' selects ALL pods in namespace"⟩] else [])) := by
    unfold policyFindings
    rw [hing, hrules]
    simp
  refine ⟨?_, ?_, ?_, rfl, ?_⟩
  · rw [hmain]
    exact List.mem_cons_self _ _
  · intro i d hmem
    rw [hmain] at hmem
    rcases List.mem_cons.mp hmem with heq | hmem2
    · exact MatrixEntry.noConfusion heq
    · by_cases hEg : policyHasEgress np
      · rw [if_pos hEg] at hmem2
        by_cases hEgR : np.egressRules.isEmpty
        · rw [if_pos hEgR] at hmem2
          rcases List.mem_singleton.mp hmem2 with heq2
          exact MatrixEntry.noConfusion heq2
        · rw [if_neg hEgR] at hmem2
          rcases List.mem_map.mp hmem2 with ⟨e, _, heq2⟩
          exact MatrixEntry.noConfusion heq2
      · rw [if_neg hEg] at hmem2
        exact List.not_mem_nil _ hmem2
  · rw [hfind]
    exact List.mem_cons_self _ _
  · intro hEg
    refine ⟨?_, ?_, ?_⟩
    · intro hmem
      rw [hmain, hEg] at hmem
      rcases List.mem_cons.mp hmem with heq | hmem2
      · exact MatrixEntry.noConfusion heq
      · simp at hmem2
    · intro i d hmem
      rw [hmain, hEg] at hmem
      rcases List.mem_cons.mp hmem with heq | hmem2
      · exact MatrixEntry.noConfusion heq
      · simp at hmem2
    · intro hmem
      rw [hfind, hEg] at hmem
      rcases List.mem_cons.mp hmem with heq | hmem2
      · exact ingress_egress_finding_ne np heq.symm
      · simp only [Bool.false_and, if_false, List.nil_append] at hmem2
        by_cases hInfo : np.podSelectorMatchLabels.isEmpty && np.podSelectorMatchExpressions.isEmpty
        · rw [if_pos hInfo] at hmem2
          have heq2 := List.mem_singleton.mp hmem2
          have hs := congrArg Finding.severity heq2
          unfold egressDenyFinding at hs
          simp only at hs
          exact absurd hs (by decide)
        · rw [if_neg hInfo] at hmem2
          exact List.not_mem_nil _ hmem2

/-- C3 witness: the deny-all classification at a concrete ingress-typed
policy with no ingress rules and no Egress type. -/
theorem network_policy_deny_all_witness :
    MatrixEntry.ingressDenyAll ∈ policyMatrix denyAllPolicy ∧
    ingressDenyFinding denyAllPolicy ∈ policyFindings denyAllPolicy ∧
    MatrixEntry.egressDenyAll ∉ policyMatrix denyAllPolicy :=
  ⟨(network_policy_deny_all denyAllPolicy (Or.inl (by decide)) rfl).1,
   (network_policy_deny_all denyAllPolicy (Or.inl (by decide)) rfl).2.2.1,
   ((network_policy_deny_all denyAllPolicy (Or.inl (by decide)) rfl).2.2.2.2 (by decide)).1⟩

-- ---------------------------------------------------------------------------
-- C6: podPhaseReason precedence
-- ---------------------------------------------------------------------------

/-- findSome? over a list whose elements all map to none yields none. -/
theorem findSome?_eq_none_of_all {α β : Type} (f : α → Option β) :
    ∀ l : List α, (∀ c ∈ l, f c = none) → l.findSome? f = none := by
  intro l hall
  induction l with
  | nil => rfl
  | cons a t ih =>
    rw [List.findSome?_cons, hall a (List.mem_cons_self _ _)]
    exact ih (fun c hc => hall c (List.mem_cons_of_mem _ hc))

/-- findSome? of a split list whose prefix maps to none returns the value
at the split point. -/
theorem findSome?_first {α β : Type} (f : α → Option β) (pre : List α) (x : α) (post : List α)
    (r : β) (hpre : ∀ c ∈ pre, f c = none) (hx : f x = some r) :
    (pre ++ x :: post).findSome? f = some r := by
  induction pre with
  | nil =>
    rw [List.nil_append, List.findSome?_cons, hx]
  | cons a t ih =>
    rw [List.cons_append, List.findSome?_cons, hpre a (List.mem_cons_self _ _)]
    exact ih (fun c hc => hpre c (List.mem_cons_of_mem _ hc))

/-- The first main container of the C6 pod: terminated with reason
OOMKilled. -/
def c6AppStatus : ContainerStatus :=
  { name := "app", ready := false, restartCount := 3,
    state := { waiting := none, terminated := some ⟨"OOMKilled"⟩ },
    lastTerminationState := { waiting := none, terminated := none } }

/-- The second main container of the C6 pod: waiting with reason
CrashLoopBackOff. -/
def c6Sidecar : ContainerStatus :=
  { name := "sidecar", ready := false, restartCount := 7,
    state := { waiting := some ⟨"CrashLoopBackOff"⟩, terminated := none },
    lastTerminationState := { waiting := none, terminated := none } }

/-- A pod whose first main container carries a terminated reason and whose
second main container carries a waiting reason. -/
def c6Pod : Pod :=
  { name := "worker-1", labels := [],
    status := { phase := PodPhase.running, reason := "", containerStatuses := [c6AppStatus, c6Sidecar], initContainerStatuses := [], conditions := [] },
    specContainers := [⟨"app"⟩, ⟨"sidecar"⟩] }

/-- C6 counterexample: with one main container terminated (OOMKilled) and
another main container waiting (CrashLoopBackOff), podPhaseReason returns
the terminated reason of the earlier container, not the waiting reason. -/
theorem podPhaseReason_terminated_first :
    podPhaseReason c6Pod = "OOMKilled" ∧
    podPhaseReason c6Pod ≠ "CrashLoopBackOff" ∧
    c6Sidecar.state.waiting = some ⟨"CrashLoopBackOff"⟩ ∧
    c6AppStatus.state.terminated = some ⟨"OOMKilled"⟩ := by decide

/-- C6 (amended): podPhaseReason scans the main container statuses in list
order and returns the first waiting-or-terminated reason found — within a
single container the waiting reason is preferred over the terminated one,
but a terminated reason on an earlier container wins over a waiting reason
on a later container; when no main container yields a reason, the init
containers are scanned the same way with an Init: prefix, then the
pod-level status reason applies, falling back to the bare phase string. -/
theorem podPhaseReason_precedence :
    (∀ (p : Pod) (pre post : List ContainerStatus) (cs : ContainerStatus) (r : String),
      p.status.containerStatuses = pre ++ cs :: post →
      (∀ c ∈ pre, csReason c = none) → csReason cs = some r → podPhaseReason p = r) ∧
    (∀ (p : Pod) (cs : ContainerStatus) (w t : String),
      p.status.containerStatuses = [cs] → cs.state.waiting = some ⟨w⟩ → w ≠ "" →
      cs.state.terminated = some ⟨t⟩ → podPhaseReason p = w) ∧
    (∀ (p : Pod) (pre post : List ContainerStatus) (cs : ContainerStatus) (r : String),
      (∀ c ∈ p.status.containerStatuses, csReason c = none) →
      p.status.initContainerStatuses = pre ++ cs :: post →
      (∀ c ∈ pre, csReason c = none) → csReason cs = some r →
      podPhaseReason p = "Init:" ++ r) ∧
    (∀ p : Pod,
      (∀ c ∈ p.status.containerStatuses, csReason c = none) →
      (∀ c ∈ p.status.initContainerStatuses, csReason c = none) →
      podPhaseReason p =
        if p.status.reason ≠ "" then p.status.reason else p.status.phase.toStr) := by
  refine ⟨?_, ?_, ?_, ?_⟩
  · intro p pre post cs r hsplit hpre hx
    unfold podPhaseReason
    rw [hsplit, findSome?_first csReason pre cs post r hpre hx]
  · intro p cs w t hone hw hne ht
    have hx : csReason cs = some w := by
      unfold csReason
      rw [hw]
      simp [hne]
    unfold podPhaseReason
    rw [hone]
    have := findSome?_first csReason [] cs [] w (by intro c hc; simp at hc) hx
    rw [List.nil_append] at this
    rw [this]
  · intro p pre post cs r hmain hsplit hpre hx
    unfold podPhaseReason
    rw [findSome?_eq_none_of_all csReason _ hmain, hsplit,
      findSome?_first csReason pre cs post r hpre hx]
  · intro p hmain hinit
    unfold podPhaseReason
    rw [findSome?_eq_none_of_all csReason _ hmain,
      findSome?_eq_none_of_all csReason _ hinit]

/-- C6 witness: the precedence theorem applied at the concrete pod whose
first container carries the terminated reason. -/
theorem podPhaseReason_precedence_witness : podPhaseReason c6Pod = "OOMKilled" :=
  podPhaseReason_precedence.1 c6Pod [] [c6Sidecar] c6AppStatus "OOMKilled" rfl
    (by intro c hc; simp at hc) (by decide)

-- ---------------------------------------------------------------------------
-- C10: diagnose_service Recent Events rendering
-- ---------------------------------------------------------------------------

/-- When the whole event list is within the cap, the render loop renders
every event. -/
theorem eventLinesAux_all (all : List Event) (h : ¬ all.length > 10) :
    ∀ l : List Event, eventLinesAux all l = l.map renderEventLine := by
  intro l
  induction l with
  | nil => rfl
  | cons e rest ih =>
    unfold eventLinesAux
    rw [if_neg h, ih]
    rfl

/-- C10: when the event lookup returns more than 10 events the section is
emitted with zero rendered lines (the loop breaks on its first iteration);
with 1 to 10 events every event is rendered. -/
theorem recent_events_render (events : List Event) :
    (events.length > 10 → recentEventsSection events = some []) ∧
    (1 ≤ events.length → events.length ≤ 10 →
      recentEventsSection events = some (events.map renderEventLine)) := by
  constructor
  · intro h
    unfold recentEventsSection
    rw [if_pos (by omega)]
    cases events with
    | nil => simp at h
    | cons e rest =>
      unfold eventLinesAux
      rw [if_pos h]
  · intro h1 h2
    unfold recentEventsSection
    rw [if_pos (by omega), eventLinesAux_all events (by omega)]

/-- A sample warning event. -/
def sampleEvent : Event :=
  { etype := "Warning", reason := "FailedMount", message := "volume mount timed out", count := 3 }

/-- Eleven identical events: one more than the render cap. -/
def elevenEvents : List Event := List.replicate 11 sampleEvent

/-- Two events: within the render cap. -/
def twoEvents : List Event :=
  [sampleEvent, { etype := "Normal", reason := "Scheduled", message := "assigned to node", count := 1 }]

/-- C10 witness: eleven events render no lines; two events render both. -/
theorem recent_events_render_witness :
    recentEventsSection elevenEvents = some [] ∧
    recentEventsSection twoEvents = some (twoEvents.map renderEventLine) :=
  ⟨(recent_events_render elevenEvents).1 (by decide),
   (recent_events_render twoEvents).2 (by decide) (by decide)⟩

-- ---------------------------------------------------------------------------
-- C9: SafeID guarantees
-- ---------------------------------------------------------------------------

/-- The replacement character of SafeID is always in the safe class. -/
theorem safeChar_mapped (c : Char) : safeChar (if safeChar c then c else '_') = true := by
  by_cases h : safeChar c
  · rw [if_pos h]
    exact h
  · rw [if_neg h]
    decide

/-- C9 counterexample: SafeID is not injective — two distinct pod names
differing only in a non-alphanumeric character produce the same node ID, so
two distinct resources visited in one run can collide. -/
theorem safeID_collision :
    safeID ("pod_" ++ "web.1") = safeID ("pod_" ++ "web-1") ∧
    ("web.1" : String) ≠ "web-1" ∧
    safeID ("pod_" ++ "web.1") = "pod_web_1" := by decide

/-- C9 (amended): SafeID is a pure function that always yields a non-empty
identifier made only of alphanumerics and underscores and never starting
with a digit; it is not injective, so distinct resources can share a node
ID. -/
theorem safeID_guarantees (s : String) :
    safeID s ≠ "" ∧
    (∀ c ∈ (safeID s).data, safeChar c = true) ∧
    (∀ c cs, (safeID s).data = c :: cs → ¬('0' ≤ c ∧ c ≤ '9')) := by
  have hsafe : ∀ x ∈ s.data.map (fun c => if safeChar c then c else '_'), safeChar x = true := by
    intro x hx
    rcases List.mem_map.mp hx with ⟨y, _, hy⟩
    rw [← hy]
    exact safeChar_mapped y
  unfold safeID
  rcases hmap : s.data.map (fun c => if safeChar c then c else '_') with _ | ⟨c, cs⟩ <;> dsimp only
  · refine ⟨by decide, ?_, ?_⟩
    · intro c hc
      rw [List.mem_singleton.mp hc]
      decide
    · intro c cs h
      injection h with h1 _
      rw [← h1]
      decide
  · rw [hmap] at hsafe
    by_cases hd : '0' ≤ c ∧ c ≤ '9'
    · rw [if_pos hd]
      refine ⟨?_, ?_, ?_⟩
      · intro h
        have := congrArg String.data h
        simp at this
      · intro x hx
        rcases List.mem_cons.mp hx with h1 | h2
        · rw [h1]
          decide
        · exact hsafe x h2
      · intro x xs hx
        injection hx with h1 _
        rw [← h1]
        decide
    · rw [if_neg hd]
      refine ⟨?_, ?_, ?_⟩
      · intro h
        have := congrArg String.data h
        simp at this
      · intro x hx
        exact hsafe x hx
      · intro x xs hx
        injection hx with h1 _
        rw [← h1]
        exact hd

/-- C9 witness: the guarantees at a concrete cluster-derived identifier
that starts with a digit and contains unsafe characters. -/
theorem safeID_guarantees_witness :
    safeID "9-coredns.pod" ≠ "" ∧
    (∀ c ∈ (safeID "9-coredns.pod").data, safeChar c = true) :=
  ⟨(safeID_guarantees "9-coredns.pod").1, (safeID_guarantees "9-coredns.pod").2.1⟩

-- ---------------------------------------------------------------------------
-- C8: empty-selector services
-- ---------------------------------------------------------------------------

/-- A selector-less (headless/external) service. -/
def headlessService : Service :=
  { name := "external-api", namespc := "default", selector := [] }

/-- C8 counterexample: for a selector-less service the Backing Pods section
of diagnose_service is omitted entirely (it is not rendered with any
N/A-style marking; the code emits the section only when at least one pod
was found). The pod resolver returns an empty list without consulting the
transport even when the transport would fail. -/
theorem backing_pods_section_omitted :
    getPodsForService headlessService (fun _ => Except.error "transport failure") =
      Except.ok [] ∧
    backingPodsSection
      (getPodsForService headlessService (fun _ => Except.error "transport failure")) = none := by
  constructor
  · rfl
  · rfl

/-- C8 (amended): a service with an empty selector resolves to an empty pod
list with no error — regardless of the transport — and the downstream
Backing Pods section of diagnose_service is omitted (not rendered as a
zero-count report). -/
theorem get_pods_for_service_no_selector (svc : Service)
    (listPods : List (String × String) → Except String (List Pod))
    (h : svc.selector = []) :
    getPodsForService svc listPods = Except.ok [] ∧
    backingPodsSection (getPodsForService svc listPods) = none := by
  have h1 : getPodsForService svc listPods = Except.ok [] := by
    unfold getPodsForService
    rw [h]
    rfl
  refine ⟨h1, ?_⟩
  rw [h1]
  rfl

/-- C8 witness: the empty-selector behaviour at a concrete service and a
concrete (successful) transport. -/
theorem get_pods_for_service_no_selector_witness :
    getPodsForService ⟨"web", "prod", []⟩ (fun _ => Except.ok []) = Except.ok [] ∧
    backingPodsSection (getPodsForService ⟨"web", "prod", []⟩ (fun _ => Except.ok [])) = none :=
  get_pods_for_service_no_selector ⟨"web", "prod", []⟩ (fun _ => Except.ok []) rfl

-- ---------------------------------------------------------------------------
-- C7: check_dns_health with no CoreDNS pods
-- ---------------------------------------------------------------------------

/-- A kube-system pod that matches none of the CoreDNS discovery
strategies. -/
def kubeProxyPod : Pod :=
  { name := "kube-proxy-x7klq", labels := [("k8s-app", "kube-proxy")],
    status := { phase := PodPhase.running, reason := "", containerStatuses := [], initContainerStatuses := [], conditions := [] },
    specContainers := [⟨"kube-proxy"⟩] }

/-- C7 counterexample: when no pod matches any discovery strategy the
report carries exactly one Critical finding and no log scan — but no
overall assessment section at all (the function returns before emitting
one), rather than an assessment stating zero pods running. -/
theorem check_dns_health_no_assessment :
    (checkDNSHealth [kubeProxyPod] none (fun _ _ => none)).assessment = none ∧
    (checkDNSHealth [kubeProxyPod] none (fun _ _ => none)).findings =
      [⟨"CRITICAL", "No CoreDNS pods found in kube-system namespace"⟩] ∧
    (checkDNSHealth [kubeProxyPod] none (fun _ _ => none)).logScans = [] := by decide

/-- C7 (amended): when no pod carries the k8s-app=kube-dns label, none
carries app.kubernetes.io/name=coredns, and none has a name starting with
coredns-, check_dns_health returns exactly one Critical no-CoreDNS finding,
scans no logs, and emits no overall assessment section. -/
theorem check_dns_health_no_pods (pods : List Pod) (svc : Option String)
    (getLogs : String → String → Option String)
    (h1 : ∀ p ∈ pods, hasLabel p "k8s-app" "kube-dns" = false)
    (h2 : ∀ p ∈ pods, hasLabel p "app.kubernetes.io/name" "coredns" = false)
    (h3 : ∀ p ∈ pods, goHasPrefix p.name "coredns-" = false) :
    checkDNSHealth pods svc getLogs =
      { findings := [⟨"CRITICAL", "No CoreDNS pods found in kube-system namespace"⟩],
        logScans := [], assessment := none } := by
  have e1 : pods.filter (fun p => hasLabel p "k8s-app" "kube-dns") = [] :=
    List.filter_eq_nil_iff.mpr (fun a ha => by simp [h1 a ha])
  have e2 : pods.filter (fun p => hasLabel p "app.kubernetes.io/name" "coredns") = [] :=
    List.filter_eq_nil_iff.mpr (fun a ha => by simp [h2 a ha])
  have e3 : pods.filter (fun p => goHasPrefix p.name "coredns-") = [] :=
    List.filter_eq_nil_iff.mpr (fun a ha => by simp [h3 a ha])
  have hfind : findCoreDNSPods pods = [] := by
    unfold findCoreDNSPods
    simp only [e1, e2, e3]
    rfl
  unfold checkDNSHealth
  rw [hfind]
  rfl

/-- C7 witness: the no-CoreDNS report at a concrete kube-system pod list
that fails all three strategies. -/
theorem check_dns_health_no_pods_witness :
    checkDNSHealth [kubeProxyPod] (some "10.0.0.10") (fun _ _ => some "") =
      { findings := [⟨"CRITICAL", "No CoreDNS pods found in kube-system namespace"⟩],
        logScans := [], assessment := none } :=
  check_dns_health_no_pods [kubeProxyPod] (some "10.0.0.10") (fun _ _ => some "")
    (by decide) (by decide) (by decide)

-- ---------------------------------------------------------------------------
-- C1: request-path trace with 0 ready / 2 not ready endpoints
-- ---------------------------------------------------------------------------

/-- A not-ready container status used by the C1 scenario pods. -/
def notReadyContainer (n : String) : ContainerStatus :=
  { name := n, ready := false, restartCount := 0,
    state := { waiting := some ⟨"CrashLoopBackOff"⟩, terminated := none },
    lastTerminationState := { waiting := none, terminated := none } }

/-- First backing pod of the C1 scenario service. -/
def apiPod1 : Pod :=
  { name := "api-7f9c5d-x2", labels := [("app", "api")],
    status := { phase := PodPhase.running, reason := "", containerStatuses := [notReadyContainer "api"], initContainerStatuses := [], conditions := [] },
    specContainers := [⟨"api"⟩] }

/-- Second backing pod of the C1 scenario service. -/
def apiPod2 : Pod :=
  { name := "api-7f9c5d-k4", labels := [("app", "api")],
    status := { phase := PodPhase.running, reason := "", containerStatuses := [notReadyContainer "api"], initContainerStatuses := [], conditions := [] },
    specContainers := [⟨"api"⟩] }

/-- The C1 scenario pod list. -/
def apiPods : List Pod := [apiPod1, apiPod2]

/-- The C1 scenario Endpoints object: one subset with no ready address and
two not-ready addresses. -/
def apiEndpointsSubsets : List EndpointSubset :=
  [{ addresses := [],
     notReadyAddresses := [⟨"10.244.1.5", some "api-7f9c5d-x2", some "node-1"⟩,
                           ⟨"10.244.2.8", some "api-7f9c5d-k4", some "node-2"⟩] }]

/-- The endpoint health of the C1 scenario service. -/
def apiEndpointHealth : EndpointHealth :=
  getServiceEndpointHealth "default" "api" apiEndpointsSubsets

/-- The topology flowchart emitted by the C1 scenario trace. -/
def apiTopology : Flowchart :=
  requestPathTopology "api-ingress" "api.example.com" "/v1" "api" "80" apiPods

/-- C1 counterexample: in the 0-ready/2-not-ready scenario the trace emits
exactly one Warning finding reading 2 endpoint(s) not ready (no finding
contains the 0-ready count), and the service node (svc) of the topology
flowchart receives no style at all — only the ingress node and the pod
nodes are styled. -/
theorem request_path_service_node_unstyled :
    apiEndpointHealth.readyCount = 0 ∧ apiEndpointHealth.notReadyCount = 2 ∧
    endpointStageFindings (Except.ok apiEndpointHealth) =
      [⟨"WARNING", "2 endpoint(s) not ready"⟩] ∧
    (∀ f ∈ endpointStageFindings (Except.ok apiEndpointHealth),
      goContains f.message "0 ready" = false) ∧
    (∀ st ∈ apiTopology.styles, goHasPrefix st "    style svc " = false) ∧
    apiTopology.styles =
      ["    style agw fill:#cce5ff,stroke:#4a90d9,stroke-width:2px",
       "    style pod_api_7f9c5d_x2 fill:#ffcccc,stroke:#cc0000,stroke-width:2px",
       "    style pod_api_7f9c5d_k4 fill:#ffcccc,stroke:#cc0000,stroke-width:2px"] := by
  decide

/-- Each pod loop step appends exactly one severity style line. -/
theorem addPodToTopology_styles (fc : Flowchart) (p : Pod) :
    (addPodToTopology fc p).styles = fc.styles ++
      ["    style " ++ safeID ("pod_" ++ p.name) ++ " " ++
        (if isPodHealthy p then severityStyle Severity.healthy
         else severityStyle Severity.critical)] := by
  unfold addPodToTopology Flowchart.addNode Flowchart.addEdge Flowchart.addStyle
  by_cases hp : isPodHealthy p
  · simp [hp]
  · simp [hp]

/-- The pod fold appends one severity style line per pod, in order. -/
theorem foldl_addPodToTopology_styles (pods : List Pod) (fc : Flowchart) :
    (pods.foldl addPodToTopology fc).styles = fc.styles ++
      pods.map (fun p => "    style " ++ safeID ("pod_" ++ p.name) ++ " " ++
        (if isPodHealthy p then severityStyle Severity.healthy
         else severityStyle Severity.critical)) := by
  induction pods generalizing fc with
  | nil => simp
  | cons p t ih =>
    rw [List.foldl_cons, ih, addPodToTopology_styles]
    simp

/-- C1 (amended): whenever the endpoint stage sees a non-zero endpoint
total with a positive not-ready count it emits exactly one Warning finding
stating the not-ready count (the ready count appears in the plain Ready
line, not in the finding); and the topology flowchart styles exactly the
ingress node (with the fixed blue raw style) and the pod nodes (Critical
when unhealthy, Healthy otherwise) — the service node is never
severity-styled. -/
theorem request_path_not_ready_endpoints (h : EndpointHealth)
    (ingName host pathStr svcName port : String) (pods : List Pod)
    (h1 : h.totalEndpoints ≠ 0) (h2 : h.notReadyCount > 0) :
    endpointStageFindings (Except.ok h) =
      [⟨"WARNING", toString h.notReadyCount ++ " endpoint(s) not ready"⟩] ∧
    (requestPathTopology ingName host pathStr svcName port pods).styles =
      "    style agw fill:#cce5ff,stroke:#4a90d9,stroke-width:2px" ::
        pods.map (fun p =>
          "    style " ++ safeID ("pod_" ++ p.name) ++ " " ++
            (if isPodHealthy p then severityStyle Severity.healthy
             else severityStyle Severity.critical)) := by
  constructor
  · unfold endpointStageFindings
    dsimp only
    rw [if_neg h1, if_pos h2]
  · have hagw : "    style " ++ "agw" ++ " " ++ "fill:#cce5ff,stroke:#4a90d9,stroke-width:2px" =
        "    style agw fill:#cce5ff,stroke:#4a90d9,stroke-width:2px" := by decide
    unfold requestPathTopology
    rw [foldl_addPodToTopology_styles]
    simp [Flowchart.addNode, Flowchart.addEdge, Flowchart.addRawStyle, hagw]

/-- C1 witness: the amended statement at the concrete 0-ready/2-not-ready
scenario. -/
theorem request_path_not_ready_endpoints_witness :
    endpointStageFindings (Except.ok apiEndpointHealth) =
      [⟨"WARNING", toString apiEndpointHealth.notReadyCount ++ " endpoint(s) not ready"⟩] ∧
    apiTopology.styles =
      "    style agw fill:#cce5ff,stroke:#4a90d9,stroke-width:2px" ::
        apiPods.map (fun p =>
          "    style " ++ safeID ("pod_" ++ p.name) ++ " " ++
            (if isPodHealthy p then severityStyle Severity.healthy
             else severityStyle Severity.critical)) :=
  request_path_not_ready_endpoints apiEndpointHealth "api-ingress" "api.example.com" "/v1"
    "api" "80" apiPods (by decide) (by decide)

end KubeDoctor
